import Mathlib

/-!
Verification of the context-compaction extension (`src/__init__.py`).

The extension is embedded shallowly: Python values that can appear as message
content are the inductive `PyVal`; messages are records with the optional
`role` / `content` fields the source reads via `.get`; the per-thread boundary
store is an insertion-ordered association list, matching Python `dict`
semantics.  The external completion capability is an oracle value
(`CompletionOutcome`), since the engine only branches on its result.  Paths on
which the Python code would raise an uncaught exception are mapped to
`Option.none` of the filter.
-/

set_option autoImplicit false

namespace Compaction

/-- Python values reachable as message content in this extension:
strings, integers (a stand-in for arbitrary scalar values), `None`,
lists, and string-keyed dicts (insertion-ordered association lists). -/
inductive PyVal where
  | str (s : String)
  | int (n : Int)
  | noneVal
  | list (xs : List PyVal)
  | dict (entries : List (String × PyVal))
  deriving Repr

/-- Python `d.get(k)` / `d[k]` on an insertion-ordered dict. -/
def dictGet {α : Type} : List (String × α) → String → Option α
  | [], _ => Option.none
  | (k', v) :: rest, k => if k' = k then Option.some v else dictGet rest k

/-- Python `d[k] = v`: overwrite in place if the key exists (keeping its
position), otherwise append the new entry at the end. -/
def dictSet {α : Type} : List (String × α) → String → α → List (String × α)
  | [], k, v => [(k, v)]
  | (k', v') :: rest, k, v =>
      if k' = k then (k, v) :: rest else (k', v') :: dictSet rest k v

/-- Escape a character for Python `repr` of a string (simplified to the
escapes that can arise here). -/
def reprEscapeChar (c : Char) : String :=
  if c = '\\' then "\\\\"
  else if c = '\'' then "\\'"
  else if c = '\n' then "\\n"
  else if c = '\t' then "\\t"
  else if c = '\r' then "\\r"
  else String.singleton c

/-- Python `repr` of a string: single quotes around the escaped body. -/
def strRepr (s : String) : String :=
  "'" ++ String.join (s.data.map reprEscapeChar) ++ "'"

/-- Escape a character for a JSON string literal (`json.dumps`). -/
def jsonEscapeChar (c : Char) : String :=
  if c = '\\' then "\\\\"
  else if c = '"' then "\\\""
  else if c = '\n' then "\\n"
  else if c = '\t' then "\\t"
  else if c = '\r' then "\\r"
  else String.singleton c

/-- JSON string literal for `json.dumps`: double quotes around the escaped body. -/
def jsonStr (s : String) : String :=
  "\"" ++ String.join (s.data.map jsonEscapeChar) ++ "\""

/-- Join rendered items with Python's default `", "` separator. -/
def commaJoin (parts : List String) : String :=
  String.intercalate ", " parts

mutual

/-- Python `repr` on `PyVal`. -/
def pyRepr : PyVal → String
  | .str s => strRepr s
  | .int n => toString n
  | .noneVal => "None"
  | .list xs => "[" ++ commaJoin (pyReprList xs) ++ "]"
  | .dict kvs => "\x7b" ++ commaJoin (pyReprEntries kvs) ++ "\x7d"

/-- `repr` of each element of a list. -/
def pyReprList : List PyVal → List String
  | [] => []
  | v :: vs => pyRepr v :: pyReprList vs

/-- `repr` of each `key: value` entry of a dict. -/
def pyReprEntries : List (String × PyVal) → List String
  | [] => []
  | (k, v) :: kvs => (strRepr k ++ ": " ++ pyRepr v) :: pyReprEntries kvs

end

/-- Python `str` on `PyVal`: the string itself for strings, `repr` otherwise
(matching `str` on ints, `None`, lists and dicts). -/
def pyStr : PyVal → String
  | .str s => s
  | v => pyRepr v

mutual

/-- Python `json.dumps` on `PyVal` with the default separators. -/
def jsonDumps : PyVal → String
  | .str s => jsonStr s
  | .int n => toString n
  | .noneVal => "null"
  | .list xs => "[" ++ commaJoin (jsonDumpsList xs) ++ "]"
  | .dict kvs => "\x7b" ++ commaJoin (jsonDumpsEntries kvs) ++ "\x7d"

/-- `json.dumps` of each element of a list. -/
def jsonDumpsList : List PyVal → List String
  | [] => []
  | v :: vs => jsonDumps v :: jsonDumpsList vs

/-- `json.dumps` of each `"key": value` entry of a dict. -/
def jsonDumpsEntries : List (String × PyVal) → List String
  | [] => []
  | (k, v) :: kvs => (jsonStr k ++ ": " ++ jsonDumps v) :: jsonDumpsEntries kvs

end

/-- The ASCII whitespace characters Python's `str.strip()` removes. -/
def pyIsSpace (c : Char) : Bool :=
  c = ' ' || c = '\t' || c = '\n' || c = '\r' || c = '\x0b' || c = '\x0c'

/-- Python `s.strip()`: drop leading and trailing whitespace. -/
def pyStrip (s : String) : String :=
  String.mk (((s.data.dropWhile pyIsSpace).reverse.dropWhile pyIsSpace).reverse)

/-- Python `s.startswith(prefix)`. -/
def pyStartswith (s pre : String) : Bool :=
  pre.data.isPrefixOf s.data

/-- Python truthiness of a `PyVal` (`if content:` etc.). -/
def pyTruthy : PyVal → Bool
  | .str s => !s.isEmpty
  | .int n => n != 0
  | .noneVal => false
  | .list xs => !xs.isEmpty
  | .dict kvs => !kvs.isEmpty

/-- A chat message as the source reads it: a dict whose `role` and `content`
keys may be absent (`msg.get('role')`, `msg.get('content', '')`). -/
structure Message where
  role : Option String
  content : Option PyVal
  deriving Repr

/-- `msg.get('content', '')`. -/
def Message.getContent (m : Message) : PyVal :=
  m.content.getD (PyVal.str "")

/-- `extract_text(content)` from the source:
a non-empty list whose head is a dict yields `head.get('text', '')`;
a non-empty list with a non-dict head yields `str(head)`;
everything else (including the empty list) yields `str(content)`. -/
def extract_text (content : PyVal) : PyVal :=
  match content with
  | PyVal.list (p :: _) =>
      match p with
      | PyVal.dict kvs => (dictGet kvs "text").getD (PyVal.str "")
      | _ => PyVal.str (pyStr p)
  | _ => PyVal.str (pyStr content)

/-- `update_text(message, text)` from the source: if the content is a
non-empty list whose first element is a dict, set that dict's `text` key in
place; otherwise replace the whole content with the string `text`. -/
def update_text (message : Message) (text : String) : Message :=
  match message.getContent with
  | PyVal.list (PyVal.dict kvs :: rest) =>
      { message with
        content := Option.some (PyVal.list (PyVal.dict (dictSet kvs "text" (PyVal.str text)) :: rest)) }
  | _ => { message with content := Option.some (PyVal.str text) }

/-- The serialization `estimate_tokens` applies to one message's content:
`json.dumps` for dicts and lists, `str` for everything else. -/
def serialize_content (c : PyVal) : String :=
  match c with
  | PyVal.list _ => jsonDumps c
  | PyVal.dict _ => jsonDumps c
  | c => pyStr c

/-- `estimate_tokens(messages)` from the source: accumulate the character
lengths of the serialized contents, then divide the total by 4, truncating. -/
def estimate_tokens (messages : List Message) : Nat :=
  (messages.foldl (fun total msg => total + (serialize_content msg.getContent).length) 0) / 4

/-- The text `build_text` contributes for one content part
(`p.get('text','')` for dicts, `str(p)` otherwise); `Option.none` marks a
part whose `text` value is not a string, on which Python's
`' '.join` would raise. -/
def part_text : PyVal → Option String
  | PyVal.dict kvs =>
      match (dictGet kvs "text").getD (PyVal.str "") with
      | PyVal.str s => Option.some s
      | _ => Option.none
  | p => Option.some (pyStr p)

/-- The flattened content `build_text` uses for one message. -/
def flatten_content (c : PyVal) : Option String :=
  match c with
  | PyVal.list parts =>
      (parts.mapM part_text).map (fun texts => String.intercalate " " texts)
  | c => Option.some (pyStr c)

/-- `build_text(messages)` from the source: the `"role: content\n\n"`
transcript handed to the summarization call (`Option.none` when joining a
non-string part would raise). -/
def build_text (messages : List Message) : Option String :=
  messages.foldl
    (fun acc msg =>
      acc.bind (fun text =>
        (flatten_content msg.getContent).map
          (fun content => text ++ (msg.role.getD "unknown") ++ ": " ++ content ++ "\n\n")))
    (Option.some "")

/-- A stored compaction boundary (`compact_boundaries[thread_id]`). -/
structure Boundary where
  summary : String
  preTokens : Nat
  messageCount : Nat
  deriving Repr

/-- The mutable state one filter invocation can touch: the request's message
list and the per-thread boundary store. -/
structure ChatState where
  messages : List Message
  boundaries : List (String × Boundary)
  deriving Repr

/-- The outcome of `ctx.chat_completion`: either the awaited call raised, or
it returned some Python value as the response. -/
inductive CompletionOutcome where
  | raises
  | returns (response : PyVal)

/-- `generate_summary` from the source, with the completion call abstracted
to its outcome.  The `try` block returns `response['choices'][0]['message']['content'].strip()`
when every lookup succeeds on a truthy dict response with a non-empty
`choices` list and the content is a string; a raising call, a falsy or
non-dict response (on which indexing by `'choices'` raises), a missing or
empty `choices` list, or failing lookups (KeyError / `.strip()` on a
non-string, both caught by the `except`) all yield `None`. -/
def generate_summary (completion : CompletionOutcome) : Option String :=
  match completion with
  | CompletionOutcome.raises => Option.none
  | CompletionOutcome.returns response =>
      match response with
      | PyVal.dict kvs =>
          if pyTruthy (PyVal.dict kvs) then
            match dictGet kvs "choices" with
            | Option.some (PyVal.list (c0 :: _)) =>
                match c0 with
                | PyVal.dict c0kvs =>
                    match dictGet c0kvs "message" with
                    | Option.some (PyVal.dict mkvs) =>
                        match dictGet mkvs "content" with
                        | Option.some (PyVal.str s) => Option.some (pyStrip s)
                        | _ => Option.none
                    | _ => Option.none
                | _ => Option.none
            | _ => Option.none
          else Option.none
      | _ => Option.none

/-- The framing prepended to the stored summary in the system message. -/
def summaryFraming : String := "[Context: Previous conversation summary]\n\n"

/-- The system message carrying a summary, as both `handle_compact` and
`apply_compaction` build it. -/
def systemMsg (summary : String) : Message :=
  { role := Option.some "system", content := Option.some (PyVal.str (summaryFraming ++ summary)) }

/-- The fixed continuation prompt written into the user's message after a
successful fresh compaction. -/
def continuationPrompt : String := "Continue our conversation. What would you like to discuss next?"

/-- `handle_compact` from the source.  The caller guarantees a non-empty
message list (the filter returns before calling it otherwise); on the
unreachable empty list the state is returned unchanged. -/
def handle_compact (st : ChatState) (thread_id : String) (completion : CompletionOutcome) :
    ChatState :=
  match st.messages.getLast? with
  | Option.none => st
  | Option.some last_message =>
      let messages_to_compact := st.messages.dropLast
      if messages_to_compact.length = 0 then
        { st with messages :=
            messages_to_compact ++ [update_text last_message "No conversation history to compact."] }
      else
        let pre_tokens := estimate_tokens messages_to_compact
        match generate_summary completion with
        | Option.none =>
            { st with messages :=
                messages_to_compact ++ [update_text last_message "Failed to generate summary."] }
        | Option.some summary =>
            if summary = "" then
              { st with messages :=
                  messages_to_compact ++ [update_text last_message "Failed to generate summary."] }
            else
              { messages :=
                  [systemMsg summary, update_text last_message continuationPrompt],
                boundaries :=
                  dictSet st.boundaries thread_id
                    { summary := summary, preTokens := pre_tokens,
                      messageCount := messages_to_compact.length } }

/-- `apply_compaction` from the source.  The caller guarantees the thread has
a stored boundary (`elif thread_id in compact_boundaries`); on the
unreachable missing key the state is returned unchanged. -/
def apply_compaction (st : ChatState) (thread_id : String) : ChatState :=
  match dictGet st.boundaries thread_id with
  | Option.none => st
  | Option.some boundary =>
      let recent := st.messages.drop (st.messages.length - 1)
      { st with messages := [systemMsg boundary.summary] ++ recent }

/-- `compact_command_filter` from the source: the per-turn entry point.
`context_threadId` is `context.get('threadId', 'default')`'s input;
the result is `Option.none` exactly when the Python would raise an uncaught
`AttributeError` (`.strip()` on a truthy non-string extracted text). -/
def compact_command_filter (st : ChatState) (context_threadId : Option String)
    (completion : CompletionOutcome) : Option ChatState :=
  let thread_id := context_threadId.getD "default"
  match st.messages.getLast? with
  | Option.none => Option.some st
  | Option.some last_message =>
      if last_message.role ≠ Option.some "user" then Option.some st
      else
        let text_content := extract_text last_message.getContent
        if pyTruthy text_content then
          match text_content with
          | PyVal.str s =>
              if pyStartswith (pyStrip s) "/compact" then
                Option.some (handle_compact st thread_id completion)
              else if (dictGet st.boundaries thread_id).isSome then
                Option.some (apply_compaction st thread_id)
              else Option.some st
          | _ => Option.none
        else
          if (dictGet st.boundaries thread_id).isSome then
            Option.some (apply_compaction st thread_id)
          else Option.some st

/-- A plain-text user message. -/
def userMsg (s : String) : Message :=
  { role := Option.some "user", content := Option.some (PyVal.str s) }

/-- A plain-text assistant message. -/
def asstMsg (s : String) : Message :=
  { role := Option.some "assistant", content := Option.some (PyVal.str s) }

/-- A completion response of the documented shape
`\x7bchoices: [\x7bmessage: \x7bcontent: text\x7d\x7d]\x7d`. -/
def okResponse (text : String) : PyVal :=
  PyVal.dict [("choices", PyVal.list
    [PyVal.dict [("message", PyVal.dict [("content", PyVal.str text)])]])]

/-- Modelled from the spec: the estimator described by its words — per-message
serialized content lengths are summed and the total is divided by four,
truncating.  Compared with the source's `estimate_tokens`. -/
def estimate_spec (messages : List Message) : Nat :=
  (messages.map (fun msg => (serialize_content msg.getContent).length)).sum / 4

/-- The spec's data-model constraint on content: when the content is a parts
sequence whose first part is structured, its `text` field (if present) holds
Text.  `extract_text` returns a string exactly on such content. -/
def firstPartTextIsText : PyVal → Bool
  | PyVal.list (PyVal.dict kvs :: _) =>
      match dictGet kvs "text" with
      | Option.some (PyVal.str _) => true
      | Option.some _ => false
      | Option.none => true
  | _ => true

/- ### Helper lemmas -/

/-- A string whose stripped form starts with `/compact` is not empty. -/
theorem isEmpty_false_of_compact_prefix (s : String)
    (h : pyStartswith (pyStrip s) "/compact" = true) : s.isEmpty = false := by
  cases s with
  | mk data =>
    cases data with
    | nil => simp [pyStartswith, pyStrip, List.isPrefixOf] at h
    | cons c cs =>
      simp [String.isEmpty, String.endPos, String.utf8ByteSize, String.Pos.ext_iff]
      have := Char.utf8Size_pos c
      omega

/-- Looking up the key just set returns the new value. -/
theorem dictGet_dictSet_self {α : Type} (kvs : List (String × α)) (k : String) (v : α) :
    dictGet (dictSet kvs k v) k = Option.some v := by
  induction kvs with
  | nil => simp [dictGet, dictSet]
  | cons hd tl ih =>
    obtain ⟨k', v'⟩ := hd
    by_cases hk : k' = k
    · simp [dictGet, dictSet, hk]
    · simp [dictGet, dictSet, hk, ih]

/-- Setting one key leaves every other key's value unchanged. -/
theorem dictGet_dictSet_ne {α : Type} (kvs : List (String × α)) (k k' : String) (v : α)
    (h : k' ≠ k) : dictGet (dictSet kvs k v) k' = dictGet kvs k' := by
  induction kvs with
  | nil => simp [dictGet, dictSet, Ne.symm h]
  | cons hd tl ih =>
    obtain ⟨k₀, v₀⟩ := hd
    by_cases hk : k₀ = k
    · subst hk
      simp [dictGet, dictSet, Ne.symm h]
    · simp [dictGet, dictSet, hk, ih]

/-- After `update_text`, the extracted text is exactly the new text. -/
theorem extract_text_update_text (m : Message) (t : String) :
    extract_text (update_text m t).getContent = PyVal.str t := by
  unfold update_text
  split
  · simp [Message.getContent, extract_text, dictGet_dictSet_self]
  · simp [Message.getContent, extract_text, pyStr]

/-- The one-element tail slice `messages[-1:]` of a list with last element `x`. -/
theorem drop_length_sub_one {α : Type} (l : List α) (x : α)
    (h : l.getLast? = Option.some x) : l.drop (l.length - 1) = [x] := by
  induction l with
  | nil => simp [List.getLast?] at h
  | cons a t ih =>
    cases t with
    | nil =>
      simp [List.getLast?] at h
      simp [h]
    | cons b t' =>
      rw [List.getLast?_cons_cons] at h
      have := ih h
      simpa [List.length_cons, Nat.succ_sub_one] using this

/-- A list with a last element decomposes as `dropLast ++ [last]`. -/
theorem dropLast_append_last {α : Type} (l : List α) (x : α)
    (h : l.getLast? = Option.some x) : l = l.dropLast ++ [x] := by
  have hne : l ≠ [] := by
    intro he
    subst he
    simp [List.getLast?] at h
  have := List.dropLast_append_getLast hne
  rw [List.getLast?_eq_getLast l hne] at h
  rw [Option.some_inj] at h
  rw [h] at this
  exact this.symm

/-- When the last message is a user message whose extracted text, once
stripped, starts with `/compact`, the filter runs `handle_compact` —
regardless of the boundary store's contents. -/
theorem filter_takes_compact_path (st : ChatState) (tid : Option String)
    (comp : CompletionOutcome) (last : Message) (s : String)
    (hlast : st.messages.getLast? = Option.some last)
    (hrole : last.role = Option.some "user")
    (htext : extract_text last.getContent = PyVal.str s)
    (hcmd : pyStartswith (pyStrip s) "/compact" = true) :
    compact_command_filter st tid comp =
      Option.some (handle_compact st (tid.getD "default") comp) := by
  unfold compact_command_filter
  rw [hlast]
  simp only [hrole, htext, pyTruthy, isEmpty_false_of_compact_prefix s hcmd, hcmd]
  simp

/-- When the last message is a user message that does not trigger the
`/compact` branch (its extracted text is falsy, or is a string not starting
with `/compact` once stripped) and the thread has a stored boundary, the
filter runs `apply_compaction`. -/
theorem filter_takes_reapply_path (st : ChatState) (tid : Option String)
    (comp : CompletionOutcome) (last : Message) (b : Boundary)
    (hlast : st.messages.getLast? = Option.some last)
    (hrole : last.role = Option.some "user")
    (hnotcmd : pyTruthy (extract_text last.getContent) = false ∨
      ∃ s, extract_text last.getContent = PyVal.str s ∧
        pyStartswith (pyStrip s) "/compact" = false)
    (hb : dictGet st.boundaries (tid.getD "default") = Option.some b) :
    compact_command_filter st tid comp =
      Option.some (apply_compaction st (tid.getD "default")) := by
  unfold compact_command_filter
  rw [hlast]
  simp only [hrole]
  rcases hnotcmd with hfalsy | ⟨s, hs, hns⟩
  · simp [hfalsy, hb]
  · rw [hs]
    by_cases hse : s.isEmpty
    · simp [pyTruthy, hse, hb]
    · simp [pyTruthy, hse, hns, hb]

/-- `handle_compact` on a conversation holding only the command message:
the command message's text is rewritten, nothing else changes. -/
theorem handle_compact_no_history (st : ChatState) (tid : String)
    (comp : CompletionOutcome) (last : Message)
    (hlast : st.messages.getLast? = Option.some last)
    (hempty : st.messages.dropLast = []) :
    handle_compact st tid comp =
      { st with messages := [update_text last "No conversation history to compact."] } := by
  unfold handle_compact
  rw [hlast]
  simp [hempty]

/-- `handle_compact` when the summarization outcome is a failure (`None` or
an empty stripped summary): the prior messages survive, the last message's
text is rewritten to the failure notice, the store is untouched. -/
theorem handle_compact_failure (st : ChatState) (tid : String)
    (comp : CompletionOutcome) (last : Message)
    (hlast : st.messages.getLast? = Option.some last)
    (hne : st.messages.dropLast ≠ [])
    (hfail : generate_summary comp = Option.none ∨ generate_summary comp = Option.some "") :
    handle_compact st tid comp =
      { st with messages :=
          st.messages.dropLast ++ [update_text last "Failed to generate summary."] } := by
  unfold handle_compact
  rw [hlast]
  have hlen : st.messages.length - 1 ≠ 0 := by
    have h1 : 0 < st.messages.dropLast.length := List.length_pos.mpr hne
    rw [List.length_dropLast] at h1
    omega
  rcases hfail with hf | hf
  · simp [hlen, hf]
  · simp [hlen, hf]

/-- `handle_compact` on a successful summarization: the conversation becomes
the system summary message plus the rewritten command message, and the new
boundary is stored for the thread. -/
theorem handle_compact_success (st : ChatState) (tid : String)
    (comp : CompletionOutcome) (last : Message) (summary : String)
    (hlast : st.messages.getLast? = Option.some last)
    (hne : st.messages.dropLast ≠ [])
    (hsum : generate_summary comp = Option.some summary)
    (hsummary : summary ≠ "") :
    handle_compact st tid comp =
      { messages := [systemMsg summary, update_text last continuationPrompt],
        boundaries := dictSet st.boundaries tid
          { summary := summary, preTokens := estimate_tokens st.messages.dropLast,
            messageCount := st.messages.dropLast.length } } := by
  unfold handle_compact
  rw [hlast]
  have hlen : st.messages.length - 1 ≠ 0 := by
    have h1 : 0 < st.messages.dropLast.length := List.length_pos.mpr hne
    rw [List.length_dropLast] at h1
    omega
  simp [hlen, hsum, hsummary]

/-- `apply_compaction` with a stored boundary: the conversation becomes the
system summary message plus the unmodified last message. -/
theorem apply_compaction_eq (st : ChatState) (tid : String) (b : Boundary) (last : Message)
    (hb : dictGet st.boundaries tid = Option.some b)
    (hlast : st.messages.getLast? = Option.some last) :
    apply_compaction st tid = { st with messages := [systemMsg b.summary, last] } := by
  unfold apply_compaction
  rw [hb]
  simp [drop_length_sub_one st.messages last hlast]

/-- Unfolding the estimator's left fold into a mapped sum. -/
theorem estimate_tokens_foldl (messages : List Message) (a : Nat) :
    messages.foldl (fun total msg => total + (serialize_content msg.getContent).length) a
      = a + (messages.map (fun msg => (serialize_content msg.getContent).length)).sum := by
  induction messages generalizing a with
  | nil => simp
  | cons m t ih => simp [ih, Nat.add_assoc]

/-- The source's estimator computes the spec's mapped-sum formula. -/
theorem estimate_tokens_eq_spec (messages : List Message) :
    estimate_tokens messages = estimate_spec messages := by
  unfold estimate_tokens estimate_spec
  rw [estimate_tokens_foldl]
  simp

/-- Appending messages never decreases the estimate. -/
theorem estimate_tokens_append_le (xs ys : List Message) :
    estimate_tokens xs ≤ estimate_tokens (xs ++ ys) := by
  rw [estimate_tokens_eq_spec, estimate_tokens_eq_spec]
  unfold estimate_spec
  rw [List.map_append, List.sum_append]
  exact Nat.div_le_div_right (Nat.le_add_right _ _)

/- ### Claim theorems -/

/-- C9: `estimate_tokens` equals the spec's formula — per-message serialized
content lengths summed, the total divided by 4 truncating — is non-negative,
deterministic (it is a function of the message list alone), and never
decreases when further messages are appended. -/
theorem C9_estimate_tokens_spec (messages : List Message) :
    estimate_tokens messages = estimate_spec messages
    ∧ 0 ≤ estimate_tokens messages
    ∧ ∀ more : List Message, estimate_tokens messages ≤ estimate_tokens (messages ++ more) :=
  ⟨estimate_tokens_eq_spec messages, Nat.zero_le _,
   fun more => estimate_tokens_append_le messages more⟩

/-- C10: whenever the last message is a user message whose extracted text,
once stripped, starts with the prefix `/compact` — including strictly longer
words such as `/compacted` or `/compacting` — the filter takes the
compaction-command path (`handle_compact`), never reapplication or
pass-through, regardless of the boundary store. -/
theorem C10_compact_prefix_takes_command_path (st : ChatState) (tid : Option String)
    (comp : CompletionOutcome) (last : Message) (s : String)
    (hlast : st.messages.getLast? = Option.some last)
    (hrole : last.role = Option.some "user")
    (htext : extract_text last.getContent = PyVal.str s)
    (hcmd : pyStartswith (pyStrip s) "/compact" = true) :
    compact_command_filter st tid comp =
      Option.some (handle_compact st (tid.getD "default") comp) :=
  filter_takes_compact_path st tid comp last s hlast hrole htext hcmd

/-- Witness for C10: `/compacting` routes to `handle_compact` even though the
thread has a stored boundary (no reapplication happens). -/
theorem C10_compact_prefix_takes_command_path_witness :
    compact_command_filter
        { messages := [userMsg "/compacting"],
          boundaries := [("default", { summary := "Old", preTokens := 3, messageCount := 1 })] }
        Option.none CompletionOutcome.raises
      = Option.some (handle_compact
          { messages := [userMsg "/compacting"],
            boundaries := [("default", { summary := "Old", preTokens := 3, messageCount := 1 })] }
          "default" CompletionOutcome.raises) :=
  C10_compact_prefix_takes_command_path _ Option.none CompletionOutcome.raises
    (userMsg "/compacting") "/compacting" rfl rfl rfl rfl

/-- C2: the documented scenario — thread `t1`, conversation
`[user: hi, assistant: hello, user: /compact]`, completion returning
`User greeted the assistant.` — rewrites the conversation to the summary
system message plus the continuation prompt and stores the boundary
`(summary, estimate of the first two messages, 2)` for `t1`. -/
theorem C2_compact_scenario :
    compact_command_filter
        { messages := [userMsg "hi", asstMsg "hello", userMsg "/compact"], boundaries := [] }
        (Option.some "t1")
        (CompletionOutcome.returns (okResponse "User greeted the assistant."))
      = Option.some
        { messages :=
            [{ role := Option.some "system",
               content := Option.some (PyVal.str
                 "[Context: Previous conversation summary]\n\nUser greeted the assistant.") },
             { role := Option.some "user",
               content := Option.some (PyVal.str
                 "Continue our conversation. What would you like to discuss next?") }],
          boundaries := [("t1",
            { summary := "User greeted the assistant.",
              preTokens := estimate_tokens [userMsg "hi", asstMsg "hello"],
              messageCount := 2 })] } := by
  rfl

/-- C1: after any compaction rewrite the engine performs — a successful fresh
compaction triggered by a `/compact` user message, or a reapplication of a
stored boundary on a subsequent user turn — the conversation is exactly two
messages: the system message whose content is
`"[Context: Previous conversation summary]\n\n"` followed by the boundary's
summary, then the most recent user turn (rewritten to the continuation prompt
for fresh compaction, unmodified for reapplication). -/
theorem C1_post_compaction_shape (st : ChatState) (tid : Option String)
    (comp : CompletionOutcome) (last : Message)
    (hlast : st.messages.getLast? = Option.some last)
    (hrole : last.role = Option.some "user") :
    (∀ s summary, extract_text last.getContent = PyVal.str s →
      pyStartswith (pyStrip s) "/compact" = true →
      st.messages.dropLast ≠ [] →
      generate_summary comp = Option.some summary → summary ≠ "" →
      compact_command_filter st tid comp = Option.some
        { messages := [systemMsg summary, update_text last continuationPrompt],
          boundaries := dictSet st.boundaries (tid.getD "default")
            { summary := summary, preTokens := estimate_tokens st.messages.dropLast,
              messageCount := st.messages.dropLast.length } })
    ∧
    (∀ b : Boundary, (pyTruthy (extract_text last.getContent) = false ∨
        ∃ s, extract_text last.getContent = PyVal.str s ∧
          pyStartswith (pyStrip s) "/compact" = false) →
      dictGet st.boundaries (tid.getD "default") = Option.some b →
      compact_command_filter st tid comp = Option.some
        { st with messages := [systemMsg b.summary, last] }) := by
  constructor
  · intro s summary htext hcmd hne hsum hsummary
    rw [filter_takes_compact_path st tid comp last s hlast hrole htext hcmd]
    rw [handle_compact_success st (tid.getD "default") comp last summary hlast hne hsum hsummary]
  · intro b hnotcmd hb
    rw [filter_takes_reapply_path st tid comp last b hlast hrole hnotcmd hb]
    rw [apply_compaction_eq st (tid.getD "default") b last hb hlast]

/-- Witness for C1: a concrete fresh compaction and a concrete reapplication,
each yielding the two-message shape. -/
theorem C1_post_compaction_shape_witness :
    compact_command_filter
        { messages := [userMsg "hi", asstMsg "hello", userMsg "/compact"], boundaries := [] }
        (Option.some "t1") (CompletionOutcome.returns (okResponse "A summary."))
      = Option.some
        { messages := [systemMsg "A summary.", update_text (userMsg "/compact") continuationPrompt],
          boundaries := [("t1", { summary := "A summary.", preTokens := 1, messageCount := 2 })] }
    ∧ compact_command_filter
        { messages := [userMsg "next question"],
          boundaries := [("t1", { summary := "S", preTokens := 5, messageCount := 2 })] }
        (Option.some "t1") CompletionOutcome.raises
      = Option.some
        { messages := [systemMsg "S", userMsg "next question"],
          boundaries := [("t1", { summary := "S", preTokens := 5, messageCount := 2 })] } :=
  ⟨(C1_post_compaction_shape
      { messages := [userMsg "hi", asstMsg "hello", userMsg "/compact"], boundaries := [] }
      (Option.some "t1") (CompletionOutcome.returns (okResponse "A summary."))
      (userMsg "/compact") rfl rfl).1
      "/compact" "A summary." rfl rfl (by simp) rfl (by simp),
   (C1_post_compaction_shape
      { messages := [userMsg "next question"],
        boundaries := [("t1", { summary := "S", preTokens := 5, messageCount := 2 })] }
      (Option.some "t1") CompletionOutcome.raises
      (userMsg "next question") rfl rfl).2
      { summary := "S", preTokens := 5, messageCount := 2 }
      (Or.inr ⟨"next question", rfl, rfl⟩) rfl⟩

/-- C3: on a `/compact` turn with non-empty prior history whose summarization
fails (the call raised, the response carried no usable content, or the
stripped summary text is empty), the prior messages survive, the last
message's text becomes exactly `Failed to generate summary.`, and the
boundary store is unchanged. -/
theorem C3_summarization_failure_preserves_store (st : ChatState) (tid : Option String)
    (comp : CompletionOutcome) (last : Message) (s : String)
    (hlast : st.messages.getLast? = Option.some last)
    (hrole : last.role = Option.some "user")
    (htext : extract_text last.getContent = PyVal.str s)
    (hcmd : pyStartswith (pyStrip s) "/compact" = true)
    (hne : st.messages.dropLast ≠ [])
    (hfail : generate_summary comp = Option.none ∨ generate_summary comp = Option.some "") :
    compact_command_filter st tid comp = Option.some
      { st with messages :=
          st.messages.dropLast ++ [update_text last "Failed to generate summary."] }
    ∧ extract_text (update_text last "Failed to generate summary.").getContent
        = PyVal.str "Failed to generate summary." := by
  refine ⟨?_, extract_text_update_text last _⟩
  rw [filter_takes_compact_path st tid comp last s hlast hrole htext hcmd]
  rw [handle_compact_failure st (tid.getD "default") comp last hlast hne hfail]

/-- Witness for C3: a raising completion call on a two-message conversation
with a pre-existing boundary for another thread; the store keeps exactly
that entry. -/
theorem C3_summarization_failure_preserves_store_witness :
    compact_command_filter
        { messages := [userMsg "hi", userMsg "/compact"],
          boundaries := [("t9", { summary := "Old", preTokens := 2, messageCount := 1 })] }
        (Option.some "t1") CompletionOutcome.raises
      = Option.some
        { messages := [userMsg "hi", userMsg "Failed to generate summary."],
          boundaries := [("t9", { summary := "Old", preTokens := 2, messageCount := 1 })] }
    ∧ extract_text (update_text (userMsg "/compact") "Failed to generate summary.").getContent
        = PyVal.str "Failed to generate summary." :=
  C3_summarization_failure_preserves_store _ (Option.some "t1") CompletionOutcome.raises
    (userMsg "/compact") "/compact" rfl rfl rfl rfl (by simp) (Or.inl rfl)

/-- C4 counterexample: on a summarization failure for a three-message
conversation the resulting message list still holds three messages, not the
single message the claim states. -/
theorem C4_single_message_counterexample :
    (compact_command_filter
        { messages := [userMsg "hi", asstMsg "hello", userMsg "/compact"], boundaries := [] }
        (Option.some "t1") CompletionOutcome.raises).map (fun r => r.messages.length)
      = Option.some 3
    ∧ (compact_command_filter
        { messages := [userMsg "hi", asstMsg "hello", userMsg "/compact"], boundaries := [] }
        (Option.some "t1") CompletionOutcome.raises).map (fun r => r.messages.length)
      ≠ Option.some 1 := by
  refine ⟨rfl, ?_⟩
  intro h
  rw [show (compact_command_filter
        { messages := [userMsg "hi", asstMsg "hello", userMsg "/compact"], boundaries := [] }
        (Option.some "t1") CompletionOutcome.raises).map (fun r => r.messages.length)
      = Option.some 3 from rfl] at h
  exact absurd (Option.some.inj h) (by decide)

/-- C4 as amended: on a `/compact` turn with non-empty prior history whose
summarization fails, the message list retains all of its messages — the same
count as before — with only the last message's text replaced by
`Failed to generate summary.`. -/
theorem C4_failure_keeps_conversation (st : ChatState) (tid : Option String)
    (comp : CompletionOutcome) (last : Message) (s : String)
    (hlast : st.messages.getLast? = Option.some last)
    (hrole : last.role = Option.some "user")
    (htext : extract_text last.getContent = PyVal.str s)
    (hcmd : pyStartswith (pyStrip s) "/compact" = true)
    (hne : st.messages.dropLast ≠ [])
    (hfail : generate_summary comp = Option.none ∨ generate_summary comp = Option.some "") :
    compact_command_filter st tid comp = Option.some
      { st with messages :=
          st.messages.dropLast ++ [update_text last "Failed to generate summary."] }
    ∧ (st.messages.dropLast ++ [update_text last "Failed to generate summary."]).length
        = st.messages.length := by
  have hmsgs : st.messages ≠ [] := by
    intro h0
    rw [h0] at hlast
    simp [List.getLast?] at hlast
  constructor
  · rw [filter_takes_compact_path st tid comp last s hlast hrole htext hcmd]
    rw [handle_compact_failure st (tid.getD "default") comp last hlast hne hfail]
  · simp [List.length_dropLast, Nat.sub_add_cancel (List.length_pos.mpr hmsgs)]

/-- Witness for C4 as amended: an empty-summary response on a three-message
conversation keeps all three messages. -/
theorem C4_failure_keeps_conversation_witness :
    compact_command_filter
        { messages := [userMsg "hey", asstMsg "yo", userMsg "/compact"], boundaries := [] }
        Option.none (CompletionOutcome.returns (okResponse "   "))
      = Option.some
        { messages := [userMsg "hey", asstMsg "yo", userMsg "Failed to generate summary."],
          boundaries := [] }
    ∧ ([userMsg "hey", asstMsg "yo"] ++ [update_text (userMsg "/compact")
          "Failed to generate summary."]).length = (3 : Nat) :=
  C4_failure_keeps_conversation _ Option.none
    (CompletionOutcome.returns (okResponse "   "))
    (userMsg "/compact") "/compact" rfl rfl rfl rfl (by simp) (Or.inr rfl)

/-- C5: a `/compact` command with no prior history rewrites the command
message's text to `No conversation history to compact.`, leaves the boundary
store unmutated, and makes no completion call — the outcome is the same for
every completion oracle. -/
theorem C5_empty_history (last : Message) (tid : Option String) (comp : CompletionOutcome)
    (bs : List (String × Boundary)) (s : String)
    (hrole : last.role = Option.some "user")
    (htext : extract_text last.getContent = PyVal.str s)
    (hcmd : pyStartswith (pyStrip s) "/compact" = true) :
    compact_command_filter { messages := [last], boundaries := bs } tid comp = Option.some
      { messages := [update_text last "No conversation history to compact."], boundaries := bs }
    ∧ ∀ comp' : CompletionOutcome,
        compact_command_filter { messages := [last], boundaries := bs } tid comp'
          = compact_command_filter { messages := [last], boundaries := bs } tid comp := by
  have h1 : ∀ c : CompletionOutcome,
      compact_command_filter { messages := [last], boundaries := bs } tid c = Option.some
        { messages := [update_text last "No conversation history to compact."],
          boundaries := bs } := by
    intro c
    have hlast : (({ messages := [last], boundaries := bs } : ChatState)).messages.getLast?
        = Option.some last := rfl
    rw [filter_takes_compact_path _ tid c last s hlast hrole htext hcmd]
    rw [handle_compact_no_history _ _ _ last hlast (by simp)]
  exact ⟨h1 comp, fun c' => (h1 c').trans (h1 comp).symm⟩

/-- Witness for C5: a lone `/compact` message with a populated store; the
store survives and the raising and succeeding oracles agree. -/
theorem C5_empty_history_witness :
    compact_command_filter
        { messages := [userMsg "/compact"],
          boundaries := [("t1", { summary := "S", preTokens := 9, messageCount := 3 })] }
        (Option.some "t1") CompletionOutcome.raises
      = Option.some
        { messages := [userMsg "No conversation history to compact."],
          boundaries := [("t1", { summary := "S", preTokens := 9, messageCount := 3 })] }
    ∧ ∀ comp' : CompletionOutcome,
        compact_command_filter
            { messages := [userMsg "/compact"],
              boundaries := [("t1", { summary := "S", preTokens := 9, messageCount := 3 })] }
            (Option.some "t1") comp'
          = compact_command_filter
              { messages := [userMsg "/compact"],
                boundaries := [("t1", { summary := "S", preTokens := 9, messageCount := 3 })] }
              (Option.some "t1") CompletionOutcome.raises :=
  C5_empty_history (userMsg "/compact") (Option.some "t1") CompletionOutcome.raises
    [("t1", { summary := "S", preTokens := 9, messageCount := 3 })] "/compact" rfl rfl rfl

/-- C6 counterexample: on the empty parts sequence `extract_text` returns the
Python string form `"[]"`, not the empty text the claim states; and on a
sequence whose structured first part carries no `text` field it returns empty
text, not that part's string form. -/
theorem C6_empty_sequence_counterexample :
    (extract_text (PyVal.list []) = PyVal.str "[]"
      ∧ extract_text (PyVal.list []) ≠ PyVal.str "")
    ∧ (extract_text (PyVal.list [PyVal.dict [("type", PyVal.str "image")]]) = PyVal.str ""
      ∧ extract_text (PyVal.list [PyVal.dict [("type", PyVal.str "image")]])
          ≠ PyVal.str (pyStr (PyVal.dict [("type", PyVal.str "image")]))) := by
  refine ⟨⟨rfl, ?_⟩, rfl, ?_⟩
  · intro h
    rw [show extract_text (PyVal.list []) = PyVal.str "[]" from rfl] at h
    exact absurd (PyVal.str.inj h) (by decide)
  · intro h
    rw [show extract_text (PyVal.list [PyVal.dict [("type", PyVal.str "image")]])
        = PyVal.str "" from rfl] at h
    exact absurd (PyVal.str.inj h) (by decide)

/-- C6 as amended: `extract_text` returns, for a non-empty sequence whose
first part is structured, that part's `text` field or empty text when the
field is absent (never the part's string form); for a non-empty sequence with
an unstructured first part, that part's string form; and for every other
content — including the empty sequence, whose string form is `"[]"` — the
content's string form. -/
theorem C6_extract_text_characterization :
    (∀ (kvs : List (String × PyVal)) (rest : List PyVal),
      extract_text (PyVal.list (PyVal.dict kvs :: rest))
        = (dictGet kvs "text").getD (PyVal.str ""))
    ∧ (∀ (p : PyVal) (rest : List PyVal), (∀ kvs, p ≠ PyVal.dict kvs) →
      extract_text (PyVal.list (p :: rest)) = PyVal.str (pyStr p))
    ∧ extract_text (PyVal.list []) = PyVal.str (pyStr (PyVal.list []))
    ∧ (∀ s, extract_text (PyVal.str s) = PyVal.str s)
    ∧ (∀ v : PyVal, (∀ xs, v ≠ PyVal.list xs) → extract_text v = PyVal.str (pyStr v)) := by
  refine ⟨fun kvs rest => rfl, ?_, rfl, fun s => rfl, ?_⟩
  · intro p rest hp
    cases p with
    | dict kvs => exact absurd rfl (hp kvs)
    | str s => rfl
    | int n => rfl
    | noneVal => rfl
    | list xs => rfl
  · intro v hv
    cases v with
    | list xs => exact absurd rfl (hv xs)
    | str s => rfl
    | int n => rfl
    | noneVal => rfl
    | dict kvs => rfl

/-- Witness for C6 as amended: a string first part and a non-sequence value,
with the hypotheses discharged concretely. -/
theorem C6_extract_text_characterization_witness :
    extract_text (PyVal.list [PyVal.str "a part"]) = PyVal.str "a part"
    ∧ extract_text PyVal.noneVal = PyVal.str "None" :=
  ⟨C6_extract_text_characterization.2.1 (PyVal.str "a part") []
      (fun _kvs h => PyVal.noConfusion h),
   C6_extract_text_characterization.2.2.2.2 PyVal.noneVal
      (fun _xs h => PyVal.noConfusion h)⟩

/-- C7: `extract_text` is a total function (it cannot raise), and on every
content value satisfying the data model — when the first part of a parts
sequence is structured, its `text` field, if present, holds Text — its result
is a string. -/
theorem C7_extract_text_returns_string (c : PyVal) (h : firstPartTextIsText c = true) :
    ∃ s, extract_text c = PyVal.str s := by
  cases c with
  | list xs =>
    cases xs with
    | nil => exact ⟨"[]", rfl⟩
    | cons p rest =>
      cases p with
      | dict kvs =>
        simp only [firstPartTextIsText] at h
        cases hg : dictGet kvs "text" with
        | none => exact ⟨"", by simp [extract_text, hg]⟩
        | some v =>
          rw [hg] at h
          cases v with
          | str s => exact ⟨s, by simp [extract_text, hg]⟩
          | int n => simp at h
          | noneVal => simp at h
          | list ys => simp at h
          | dict kvs' => simp at h
      | str s => exact ⟨s, rfl⟩
      | int n => exact ⟨toString n, rfl⟩
      | noneVal => exact ⟨"None", rfl⟩
      | list ys => exact ⟨pyStr (PyVal.list ys), rfl⟩
  | str s => exact ⟨s, rfl⟩
  | int n => exact ⟨toString n, rfl⟩
  | noneVal => exact ⟨"None", rfl⟩
  | dict kvs => exact ⟨pyStr (PyVal.dict kvs), rfl⟩

/-- Witness for C7: a parts sequence whose first part carries Text. -/
theorem C7_extract_text_returns_string_witness :
    firstPartTextIsText (PyVal.list [PyVal.dict [("text", PyVal.str "t")]]) = true
    ∧ ∃ s, extract_text (PyVal.list [PyVal.dict [("text", PyVal.str "t")]]) = PyVal.str s :=
  ⟨rfl, C7_extract_text_returns_string (PyVal.list [PyVal.dict [("text", PyVal.str "t")]]) rfl⟩

/-- C8 counterexample: a non-empty sequence whose first part is structured
but carries no `text` field — the claim requires a wholesale replacement of
the content with Text, yet the code edits the first part in place, adding a
`text` key and keeping the part. -/
theorem C8_missing_text_field_counterexample :
    update_text
        { role := Option.some "user",
          content := Option.some (PyVal.list [PyVal.dict [("type", PyVal.str "image_url")]]) } "x"
      = { role := Option.some "user",
          content := Option.some (PyVal.list
            [PyVal.dict [("type", PyVal.str "image_url"), ("text", PyVal.str "x")]]) }
    ∧ update_text
        { role := Option.some "user",
          content := Option.some (PyVal.list [PyVal.dict [("type", PyVal.str "image_url")]]) } "x"
      ≠ { role := Option.some "user", content := Option.some (PyVal.str "x") } := by
  refine ⟨rfl, ?_⟩
  intro h
  rw [show update_text
        { role := Option.some "user",
          content := Option.some (PyVal.list [PyVal.dict [("type", PyVal.str "image_url")]]) } "x"
      = { role := Option.some "user",
          content := Option.some (PyVal.list
            [PyVal.dict [("type", PyVal.str "image_url"), ("text", PyVal.str "x")]]) }
    from rfl] at h
  exact PyVal.noConfusion (Option.some.inj (congrArg Message.content h))

/-- C8 as amended: when the content is a non-empty sequence whose first part
is structured (whether or not it already carries a `text` field),
`update_text` sets only that part's `text` field — all other fields of the
part and all other parts are untouched; in every other case the content is
replaced wholesale with the new text as Text. -/
theorem C8_update_text_characterization (m : Message) (text : String) :
    (∀ (kvs : List (String × PyVal)) (rest : List PyVal),
      m.getContent = PyVal.list (PyVal.dict kvs :: rest) →
      update_text m text = { m with content := Option.some (PyVal.list
          (PyVal.dict (dictSet kvs "text" (PyVal.str text)) :: rest)) }
      ∧ ∀ k, k ≠ "text" →
          dictGet (dictSet kvs "text" (PyVal.str text)) k = dictGet kvs k)
    ∧ ((∀ (kvs : List (String × PyVal)) (rest : List PyVal),
        m.getContent ≠ PyVal.list (PyVal.dict kvs :: rest)) →
      update_text m text = { m with content := Option.some (PyVal.str text) }) := by
  constructor
  · intro kvs rest hc
    refine ⟨?_, fun k hk => dictGet_dictSet_ne kvs "text" k (PyVal.str text) hk⟩
    unfold update_text
    rw [hc]
  · intro hno
    unfold update_text
    split
    · rename_i kvs rest heq
      exact absurd heq (hno kvs rest)
    · rfl

/-- Witness for C8 as amended: an in-place `text` edit preserving a sibling
field, and a wholesale replacement on plain-text content. -/
theorem C8_update_text_characterization_witness :
    update_text
        { role := Option.some "user",
          content := Option.some (PyVal.list
            [PyVal.dict [("text", PyVal.str "old"), ("kind", PyVal.str "text")]]) } "new"
      = { role := Option.some "user",
          content := Option.some (PyVal.list
            [PyVal.dict [("text", PyVal.str "new"), ("kind", PyVal.str "text")]]) }
    ∧ dictGet (dictSet [("text", PyVal.str "old"), ("kind", PyVal.str "text")]
          "text" (PyVal.str "new")) "kind"
        = dictGet [("text", PyVal.str "old"), ("kind", PyVal.str "text")] "kind"
    ∧ update_text (userMsg "y") "new"
        = { role := Option.some "user", content := Option.some (PyVal.str "new") } :=
  ⟨((C8_update_text_characterization
      { role := Option.some "user",
        content := Option.some (PyVal.list
          [PyVal.dict [("text", PyVal.str "old"), ("kind", PyVal.str "text")]]) } "new").1
      [("text", PyVal.str "old"), ("kind", PyVal.str "text")] [] rfl).1,
   ((C8_update_text_characterization
      { role := Option.some "user",
        content := Option.some (PyVal.list
          [PyVal.dict [("text", PyVal.str "old"), ("kind", PyVal.str "text")]]) } "new").1
      [("text", PyVal.str "old"), ("kind", PyVal.str "text")] [] rfl).2
      "kind" (by decide),
   (C8_update_text_characterization (userMsg "y") "new").2
      (fun _kvs _rest h => PyVal.noConfusion h)⟩

end Compaction
